import Mathlib

/-
Shallow embedding of cfn2-package-core (src/lib/packageTemplate.js).

The repository holds two variants of the same module: an https-request
variant and an aws-sdk variant.  Both share the resource-type lookup
table, the task planner (makeResourceTasks up to the readFile call) and
the key computation; they differ in how the conditional upload talks to
S3.  Both are embedded below: the shared planner once, and one upload
function per variant.

Modelling conventions:
  - JSON/YAML values (templates, resources, Properties) are a JVal.
    `undefined` is the absence of a key, so property access returns an
    Option.  JS `typeof` is embedded as jsTypeof (note typeof null and
    typeof of an array are both "object", as in JS).
  - Property access on null throws in JS; the code paths that can reach
    such an access are embedded as an explicit `threw` outcome.
  - Exotic string coercion of non-string Type values used as lookup keys
    is not modelled: a non-string Type is treated as missing from the
    table (its coerced key names no table entry).
  - External capabilities (filesystem reads, the npm dependency packer,
    the directory zipper, the MD5 digest, S3, CloudFormation and Lambda
    transports) are oracles collected in a World record; the MD5 digest
    is an uninterpreted deterministic function of the payload bytes.
  - Each per-resource task is embedded as a function from the World to a
    TaskOutput: its result (ok / callback error / thrown exception), the
    mutation it performs on the resource Properties, and the trace of
    I/O effects it issues.
  - run-parallel launches every task; a synchronous throw during the
    launch loop aborts the remaining launches and crashes the run; a
    synchronous callback error (the structural Properties error) is
    delivered on the next tick, so it beats every I/O-dependent error;
    tasks are never cancelled, so a failed run still carries the effects
    of every task.  Among purely asynchronous errors the real completion
    order is timing dependent; the model picks the first in launch
    order.
-/

/-- A JSON-like runtime value, as the template parser delivers it. -/
inductive JVal where
  | jstr : String → JVal
  | jnum : Int → JVal
  | jbool : Bool → JVal
  | jnull : JVal
  | jarr : List JVal → JVal
  | jobj : List (String × JVal) → JVal

/-- JS typeof of a JVal (undefined does not arise: absence is Option.none).
Note typeof null = "object" and typeof of an array = "object". -/
def jsTypeof : JVal → String
  | JVal.jstr _ => "string"
  | JVal.jnum _ => "number"
  | JVal.jbool _ => "boolean"
  | JVal.jnull => "object"
  | JVal.jarr _ => "object"
  | JVal.jobj _ => "object"

/-- Association-list lookup with JS object-literal semantics: a later
entry for the same key overwrites an earlier one, so the last match is
returned. -/
def lookupLast {α : Type} (fields : List (String × α)) (k : String) : Option α :=
  (fields.reverse.find? (fun p => p.1 == k)).map (fun p => p.2)

/-- Property access, `v[k]`; none is JS undefined.  Access on jnull
throws in JS and is intercepted by the callers before reaching here. -/
def jsGet : JVal → String → Option JVal
  | JVal.jobj fields, k => lookupLast fields k
  | _, _ => none

/-- The entries of the packageResourceMap object literal, in source
order.  The key AWS::AppSync::Resolver appears twice: in a JS object
literal the second entry silently overwrites the first. -/
def packageResourceMapEntries : List (String × String) :=
  [ ("AWS::Serverless::Function", "CodeUri"),
    ("AWS::Serverless::Api", "DefinitionUri"),
    ("AWS::ApiGateway::RestApi", "BodyS3Location"),
    ("AWS::Lambda::Function", "Code"),
    ("AWS::AppSync::GraphQLSchema", "DefinitionS3Location"),
    ("AWS::AppSync::Resolver", "RequestMappingTemplateS3Location"),
    ("AWS::AppSync::Resolver", "ResponseMappingTemplateS3Location"),
    ("AWS::ElasticBeanstalk::Application-Version", "SourceBundle"),
    ("AWS::CloudFormation::Stack", "TemplateURL"),
    ("AWS::Include", "Location") ]

/-- packageResourceMap[t]: the static type-to-property lookup table. -/
def packageResourceMap (t : String) : Option String :=
  lookupLast packageResourceMapEntries t

/-- packageResourceMap[Type] for the Type field as read off the
resource; a non-string Type names no table entry. -/
def tableLookupOf : Option JVal → Option String
  | some (JVal.jstr t) => packageResourceMap t
  | _ => none

/-- Type === AWS::Serverless::Function || Type === AWS::Lambda::Function. -/
def isFnTypeB : Option JVal → Bool
  | some (JVal.jstr t) => t == "AWS::Serverless::Function" || t == "AWS::Lambda::Function"
  | _ => false

/-- value.startsWith(p), embedded as a character-list prefix test so
that it computes by iota reduction (String.startsWith itself does not
reduce in the kernel). -/
def strStartsWith (s p : String) : Bool :=
  p.toList.isPrefixOf s.toList

/-- What the per-resource task decides synchronously, before any I/O
(makeResourceTasks, the body up to the readFile call). -/
inductive PlanDecision where
  | skip
  | structuralError : String → PlanDecision
  | threw : String → PlanDecision
  | emit : String → String → PlanDecision
deriving DecidableEq, Repr

/-- The synchronous head of one resource task (source lines 116-151 of
the https variant; the aws-sdk variant is identical here): the
updateFunctions type filter, the table lookup, the Properties
validation, and the local-artifact test on the target property. -/
def planResource (uf : Bool) (logicalId : String) (resource : JVal) : PlanDecision :=
  match resource with
  | JVal.jnull => PlanDecision.threw "TypeError: cannot destructure null"
  | r =>
    let ty := jsGet r "Type"
    if uf && !(isFnTypeB ty) then PlanDecision.skip
    else
      match tableLookupOf ty with
      | none => PlanDecision.skip
      | some propertyName =>
        match jsGet r "Properties" with
        | none => PlanDecision.skip
        | some props =>
          if jsTypeof props = "object" then
            match props with
            | JVal.jnull => PlanDecision.threw "TypeError: cannot read properties of null"
            | p =>
              match jsGet p propertyName with
              | some (JVal.jstr v) =>
                if strStartsWith v "s3:" then PlanDecision.skip
                else PlanDecision.emit propertyName v
              | _ => PlanDecision.skip
          else
            PlanDecision.structuralError
              ("Resources." ++ logicalId ++ ".Properties must be an object.")

/-- readFile outcome: raw bytes, or an error carrying an errno code
(EISDIR signals a directory) and a message. -/
inductive FsRead where
  | ok : List Nat → FsRead
  | fsError : String → String → FsRead
deriving DecidableEq, Repr

/-- One entry of the live stack-resource index; only PhysicalResourceId
(an array of strings, as xml2js delivers it) is consulted. -/
structure StackResource where
  PhysicalResourceId : List String
deriving DecidableEq, Repr

/-- The glob options packDirectory passes to jszip-glob. -/
structure ZipGlobOptions where
  glob : String
  dot : Bool
  nodir : Bool
  nosort : Bool
deriving DecidableEq, Repr

/-- The archive-generation options (compression method and level). -/
structure ZipGenOptions where
  compression : String
  level : Nat
deriving DecidableEq, Repr

/-- zipFiles('**', { dot: true, nodir: true, nosort: true, zip: new JSZip() }). -/
def packDirectoryGlobOptions : ZipGlobOptions :=
  { glob := "**", dot := true, nodir := true, nosort := true }

/-- generateAsync compression DEFLATE at level 9 (both packers). -/
def packDirectoryGenOptions : ZipGenOptions :=
  { compression := "DEFLATE", level := 9 }

/-- One observable I/O action a task issues, in order. -/
inductive Effect where
  | readFileE : String → Effect
  | packFunctionE : String → String → Effect
  | packDirectoryE : String → ZipGlobOptions → ZipGenOptions → Effect
  | headE : String → String → Effect
  | putE : String → List Nat → Effect
  | headSdkE : String → String → String → Effect
  | putSdkE : String → String → List Nat → Effect
  | updateFnE : String → Effect
deriving DecidableEq, Repr

/-- How one task settles: callback(null), callback(err), or an exception
thrown past the callback machinery. -/
inductive TaskResult where
  | ok : TaskResult
  | err : String → TaskResult
  | threw : String → TaskResult
deriving DecidableEq, Repr

/-- One task's observable outcome: its result, the Properties mutation
it performed (property name and new value), and its I/O trace. -/
structure TaskOutput where
  result : TaskResult
  mutation : Option (String × String)
  effects : List Effect
deriving DecidableEq, Repr

/-- The external capabilities, as oracles: filesystem, packers, digest,
S3 (per variant), Lambda, and the two initial loads.  md5hex is the MD5
hex digest as an uninterpreted deterministic function. -/
structure World where
  fsRead : String → FsRead
  packFunctionR : String → Except String (List Nat × Option String)
  packDirectoryR : String → Except String (List Nat)
  md5hex : List Nat → String
  homedir : String
  headStatus : String → Nat
  headStatusMessage : String → String
  putNetError : String → Option String
  headSdk : String → Option Nat
  putSdkError : String → Option String
  updateFnError : String → Option String
  templateLoad : Except String JVal
  stackLoad : Except String (List (String × StackResource))

/-- The options record as the task code sees it (after packageTemplate
defaulted basedir and computed templateDir). -/
structure Options where
  bucket : String
  pfx : Option String
  basedir : String
  templateDir : String
  updateFunctions : Bool
  stackResources : List (String × StackResource)

/-- shortMd5: thumbprint ? thumbprint.substr(0,16) : md5OfBody.substr(0,16).
An empty thumbprint string is falsy in JS. -/
def shortIdOf (md5OfBody : String) (thumbprint : Option String) : String :=
  match thumbprint with
  | some t => if t = "" then md5OfBody.take 16 else t.take 16
  | none => md5OfBody.take 16

/-- The upload key: prefix undefined gives logicalId-shortMd5, else
prefix/logicalId-shortMd5. -/
def uploadKeyOf (pfx : Option String) (logicalId shortMd5 : String) : String :=
  match pfx with
  | none => logicalId ++ "-" ++ shortMd5
  | some p => p ++ "/" ++ logicalId ++ "-" ++ shortMd5

/-- The upload closure of the https variant (source lines 182-266): a
conditional HEAD with If-None-Match, then a PUT whose response status is
not inspected (only a transport error fails it), the Properties
rewrite, and the optional live-update tail.  Note the rewrite happens
before the stack-index lookup and the updateFunctionCode call. -/
def uploadHttps (opts : Options) (w : World) (logicalId pn : String)
    (body : List Nat) (thumbprint : Option String) : TaskOutput :=
  let md5OfBody := w.md5hex body
  let shortMd5 := shortIdOf md5OfBody thumbprint
  let key := uploadKeyOf opts.pfx logicalId shortMd5
  let path := "/" ++ opts.bucket ++ "/" ++ key
  let s3url := "s3:/" ++ path
  let hEff := Effect.headE path ("\"" ++ md5OfBody ++ "\"")
  let statusCode := w.headStatus path
  if statusCode = 304 then
    { result := TaskResult.ok, mutation := some (pn, s3url), effects := [hEff] }
  else if statusCode ≠ 200 ∧ statusCode ≠ 404 then
    { result := TaskResult.err
        ("Response " ++ toString statusCode ++ " " ++ w.headStatusMessage path ++ " from S3"),
      mutation := none, effects := [hEff] }
  else
    match w.putNetError path with
    | some e =>
      { result := TaskResult.err e, mutation := none,
        effects := [hEff, Effect.putE path body] }
    | none =>
      if opts.updateFunctions = false then
        { result := TaskResult.ok, mutation := some (pn, s3url),
          effects := [hEff, Effect.putE path body] }
      else
        match lookupLast opts.stackResources logicalId with
        | none =>
          { result := TaskResult.err
              ("The resource \x27" ++ logicalId ++ "\x27 in the stack is not found"),
            mutation := some (pn, s3url),
            effects := [hEff, Effect.putE path body] }
        | some sr =>
          let functionName := sr.PhysicalResourceId.headD "undefined"
          match w.updateFnError functionName with
          | some _ =>
            { result := TaskResult.err
                ("Updating the function \x27" ++ functionName ++ "\x27 is failed"),
              mutation := some (pn, s3url),
              effects := [hEff, Effect.putE path body, Effect.updateFnE functionName] }
          | none =>
            { result := TaskResult.ok, mutation := some (pn, s3url),
              effects := [hEff, Effect.putE path body, Effect.updateFnE functionName] }

/-- The upload closure of the aws-sdk variant (source lines 523-606):
s3.headObject with IfNoneMatch; on an error response, status 304 skips
the put, a status other than 200/404 evaluates res.statusCode where no
res is in scope, throwing a ReferenceError; otherwise s3.putObject, the
Properties rewrite, and the same live-update tail. -/
def uploadSdk (opts : Options) (w : World) (logicalId pn : String)
    (body : List Nat) (thumbprint : Option String) : TaskOutput :=
  let md5OfBody := w.md5hex body
  let shortMd5 := shortIdOf md5OfBody thumbprint
  let key := uploadKeyOf opts.pfx logicalId shortMd5
  let s3url := "s3://" ++ opts.bucket ++ "/" ++ key
  let hEff := Effect.headSdkE opts.bucket key ("\"" ++ md5OfBody ++ "\"")
  let putPhase : TaskOutput :=
    match w.putSdkError key with
    | some e =>
      { result := TaskResult.err e, mutation := none,
        effects := [hEff, Effect.putSdkE opts.bucket key body] }
    | none =>
      if opts.updateFunctions = false then
        { result := TaskResult.ok, mutation := some (pn, s3url),
          effects := [hEff, Effect.putSdkE opts.bucket key body] }
      else
        match lookupLast opts.stackResources logicalId with
        | none =>
          { result := TaskResult.err
              ("The resource \x27" ++ logicalId ++ "\x27 in the stack is not found"),
            mutation := some (pn, s3url),
            effects := [hEff, Effect.putSdkE opts.bucket key body] }
        | some sr =>
          let functionName := sr.PhysicalResourceId.headD "undefined"
          match w.updateFnError functionName with
          | some _ =>
            { result := TaskResult.err
                ("Updating the function \x27" ++ functionName ++ "\x27 is failed"),
              mutation := some (pn, s3url),
              effects := [hEff, Effect.putSdkE opts.bucket key body,
                Effect.updateFnE functionName] }
          | none =>
            { result := TaskResult.ok, mutation := some (pn, s3url),
              effects := [hEff, Effect.putSdkE opts.bucket key body,
                Effect.updateFnE functionName] }
  match w.headSdk key with
  | some sc =>
    if sc = 304 then
      { result := TaskResult.ok, mutation := some (pn, s3url), effects := [hEff] }
    else if sc ≠ 200 ∧ sc ≠ 404 then
      { result := TaskResult.threw "ReferenceError: res is not defined",
        mutation := none, effects := [hEff] }
    else putPhase
  | none => putPhase

/-- Simplified POSIX dirname of the template file path: everything
before the last slash ("." when there is none). -/
def dirnameOf (p : String) : String :=
  match p.toList.reverse.dropWhile (fun c => !(c == Char.ofNat 47)) with
  | [] => "."
  | _ :: rest => if rest.isEmpty then "/" else String.mk rest.reverse

/-- Simplified POSIX resolve(dir, value): an absolute value stands
alone, a relative one is joined onto dir. -/
def pathResolve (dir value : String) : String :=
  if strStartsWith value "/" then value else dir ++ "/" ++ value

/-- One whole resource task of the https variant: the synchronous plan,
then readFile, the directory-vs-file branch on the EISDIR code, the
packer choice by Type, and the conditional upload. -/
def runTask (opts : Options) (w : World) (logicalId : String) (resource : JVal) : TaskOutput :=
  match planResource opts.updateFunctions logicalId resource with
  | PlanDecision.skip =>
    { result := TaskResult.ok, mutation := none, effects := [] }
  | PlanDecision.structuralError m =>
    { result := TaskResult.err m, mutation := none, effects := [] }
  | PlanDecision.threw m =>
    { result := TaskResult.threw m, mutation := none, effects := [] }
  | PlanDecision.emit pn value =>
    let artifactPath := pathResolve opts.templateDir value
    let rEff := Effect.readFileE artifactPath
    match w.fsRead artifactPath with
    | FsRead.ok bytes =>
      let u := uploadHttps opts w logicalId pn bytes none
      { u with effects := rEff :: u.effects }
    | FsRead.fsError code msg =>
      if code ≠ "EISDIR" then
        { result := TaskResult.err msg, mutation := none, effects := [rEff] }
      else if isFnTypeB (jsGet resource "Type") then
        let pEff := Effect.packFunctionE artifactPath (w.homedir ++ "/.cfn-package")
        match w.packFunctionR artifactPath with
        | Except.error e =>
          { result := TaskResult.err e, mutation := none, effects := [rEff, pEff] }
        | Except.ok (bytes, thumbprint) =>
          let u := uploadHttps opts w logicalId pn bytes thumbprint
          { u with effects := rEff :: pEff :: u.effects }
      else
        let pEff := Effect.packDirectoryE artifactPath packDirectoryGlobOptions packDirectoryGenOptions
        match w.packDirectoryR artifactPath with
        | Except.error e =>
          { result := TaskResult.err e, mutation := none, effects := [rEff, pEff] }
        | Except.ok bytes =>
          let u := uploadHttps opts w logicalId pn bytes none
          { u with effects := rEff :: pEff :: u.effects }

/-- Insert one literal entry into the fields built so far: an existing
key keeps its position and takes the new value, a new key is appended
(JS object-literal construction). -/
def insertField (acc : List (String × JVal)) (kv : String × JVal) : List (String × JVal) :=
  if acc.any (fun p => p.1 == kv.1) then
    acc.map (fun p => if p.1 == kv.1 then (p.1, kv.2) else p)
  else acc ++ [kv]

/-- The fields of an object value as a JS object holds them: duplicate
literal keys collapsed, insertion order kept. -/
def objFields (fields : List (String × JVal)) : List (String × JVal) :=
  fields.foldl insertField []

/-- Object.entries; none embeds the TypeError thrown on null.  A string
yields its indexed characters, other primitives yield nothing, as in
JS. -/
def jsEntries : JVal → Option (List (String × JVal))
  | JVal.jobj fields => some (objFields fields)
  | JVal.jarr xs => some (xs.enum.map (fun p => (toString p.1, p.2)))
  | JVal.jnull => none
  | JVal.jstr s => some (s.toList.enum.map (fun p => (toString p.1, JVal.jstr (String.singleton p.2))))
  | _ => some []

/-- v[k] = newv on an object value (assignment; other values are left
as they are, such an assignment never happens in the embedded paths). -/
def objSet (v : JVal) (k : String) (newv : JVal) : JVal :=
  match v with
  | JVal.jobj fields =>
    if (objFields fields).any (fun p => p.1 == k) then
      JVal.jobj ((objFields fields).map (fun p => if p.1 == k then (p.1, newv) else p))
    else JVal.jobj (objFields fields ++ [(k, newv)])
  | other => other

/-- Apply a task's Properties mutation to its resource. -/
def applyMutation (resource : JVal) (m : Option (String × String)) : JVal :=
  match m with
  | none => resource
  | some (pn, s) =>
    match jsGet resource "Properties" with
    | some props => objSet resource "Properties" (objSet props pn (JVal.jstr s))
    | none => resource

/-- The message of a thrown plan, when the plan throws. -/
def threwMsgOf : PlanDecision → Option String
  | PlanDecision.threw m => some m
  | _ => none

/-- The message of a structural validation error, when the plan has one. -/
def structMsgOf : PlanDecision → Option String
  | PlanDecision.structuralError m => some m
  | _ => none

/-- The message of a callback error, when the task erred. -/
def errMsgOf : TaskResult → Option String
  | TaskResult.err m => some m
  | _ => none

/-- How one packaging run settles: an exception escaped the callback
machinery, or the completion callback got the first error, or it got
the mutated Resources entries.  A failed run still carries every
task's effects (tasks are not cancelled). -/
inductive RunOutcome where
  | crashed : String → RunOutcome
  | failed : String → List Effect → RunOutcome
  | succeeded : List (String × JVal) → List Effect → RunOutcome

/-- run-parallel over the resource tasks (https variant): a synchronous
throw during launch crashes the run; otherwise every task runs, the
first synchronously delivered (structural) error wins over any
I/O-dependent error, and with no error the mutated entries are
returned. -/
def packageRunTasks (opts : Options) (w : World) (entries : List (String × JVal)) : RunOutcome :=
  match entries.findSome? (fun e => threwMsgOf (planResource opts.updateFunctions e.1 e.2)) with
  | some m => RunOutcome.crashed m
  | none =>
    let outs := entries.map (fun e => (e.1, e.2, runTask opts w e.1 e.2))
    let effects := (outs.map (fun o => o.2.2.effects)).flatten
    match entries.findSome? (fun e => structMsgOf (planResource opts.updateFunctions e.1 e.2)) with
    | some m => RunOutcome.failed m effects
    | none =>
      match outs.findSome? (fun o => errMsgOf o.2.2.result) with
      | some m => RunOutcome.failed m effects
      | none =>
        RunOutcome.succeeded (outs.map (fun o => (o.1, applyMutation o.2.1 o.2.2.mutation))) effects

/-- packageTemplate once the template and the stack index are loaded:
destructuring a null template throws, a Resources whose typeof is not
"object" fails the run before any task I/O, Object.entries of a null
Resources throws, and otherwise the resource tasks run. -/
def packageLoaded (opts : Options) (w : World) (template : JVal) : RunOutcome :=
  match template with
  | JVal.jnull => RunOutcome.crashed "TypeError: cannot destructure null"
  | t =>
    match jsGet t "Resources" with
    | none => RunOutcome.failed "Resources must be an object." []
    | some resources =>
      if jsTypeof resources = "object" then
        match jsEntries resources with
        | none => RunOutcome.crashed "TypeError: Object.entries called on null"
        | some entries => packageRunTasks opts w entries
      else RunOutcome.failed "Resources must be an object." []

/-- The caller-facing options record, before defaulting. -/
structure RawOptions where
  bucket : String
  pfx : Option String
  templateFile : String
  basedir : Option String
  updateFunctions : Bool

/-- packageTemplate (https variant, source lines 28-71): default
basedir to the template directory, compute templateDir, join the
template load with the optional stack-resource load, validate
Resources, and run the tasks. -/
def packageTemplate (raw : RawOptions) (w : World) : RunOutcome :=
  let templateDir := dirnameOf raw.templateFile
  let basedir := raw.basedir.getD templateDir
  match w.templateLoad with
  | Except.error e => RunOutcome.failed e []
  | Except.ok template =>
    match (if raw.updateFunctions then w.stackLoad else Except.ok []) with
    | Except.error e => RunOutcome.failed e []
    | Except.ok stackResources =>
      packageLoaded
        { bucket := raw.bucket, pfx := raw.pfx, basedir := basedir,
          templateDir := templateDir, updateFunctions := raw.updateFunctions,
          stackResources := stackResources } w template

/-- Claim-side reading of "the target property is absent, not a string,
or already carries the remote-location prefix" for a Properties value;
property access on a non-object is undefined in JS, hence absent. -/
def propNotLocalB (props : JVal) (pn : String) : Bool :=
  match jsGet props pn with
  | some (JVal.jstr v) => strStartsWith v "s3:"
  | _ => true

/-- The skip condition exactly as the claim states it: live-update mode
with a non-function type, or no table entry for the type, or Properties
absent, or the target property absent / not a string / already
prefixed. -/
def skipSpecLiteral (uf : Bool) (resource : JVal) : Bool :=
  let ty := jsGet resource "Type"
  (uf && !(isFnTypeB ty)) ||
    match tableLookupOf ty with
    | none => true
    | some pn =>
      match jsGet resource "Properties" with
      | none => true
      | some props => propNotLocalB props pn

/-- Whether a value is null. -/
def isNullB : JVal → Bool
  | JVal.jnull => true
  | _ => false

/-- The amended skip condition: as the claim states it, except that the
fourth alternative presumes Properties is typeof-object and non-null (a
non-object Properties is the structural error, a null one a TypeError,
a null resource a TypeError — none of them skips). -/
def skipSpecAmended (uf : Bool) (resource : JVal) : Bool :=
  !(isNullB resource) &&
    ((uf && !(isFnTypeB (jsGet resource "Type"))) ||
      match tableLookupOf (jsGet resource "Type") with
      | none => true
      | some pn =>
        match jsGet resource "Properties" with
        | none => true
        | some props =>
          jsTypeof props == "object" && !(isNullB props) && propNotLocalB props pn)

/-- A quiet world for concrete instantiations: every read succeeds,
the destination reports absent, every put and update succeeds. -/
def testWorld : World :=
  { fsRead := fun _ => FsRead.ok [7],
    packFunctionR := fun _ => Except.ok ([8], some "tp0123456789abcdefgh"),
    packDirectoryR := fun _ => Except.ok [9],
    md5hex := fun _ => "0123456789abcdef0123456789abcdef",
    homedir := "/home/u",
    headStatus := fun _ => 404,
    headStatusMessage := fun _ => "Not Found",
    putNetError := fun _ => none,
    headSdk := fun _ => none,
    putSdkError := fun _ => none,
    updateFnError := fun _ => none,
    templateLoad := Except.ok JVal.jnull,
    stackLoad := Except.ok [] }

/-- Concrete options: bucket b, no prefix, template directory /t. -/
def baseOpts : Options :=
  { bucket := "b", pfx := none, basedir := "/t", templateDir := "/t",
    updateFunctions := false, stackResources := [] }

/-- A Lambda resource whose Code names a local path. -/
def lambdaRes : JVal :=
  JVal.jobj [("Type", JVal.jstr "AWS::Lambda::Function"),
             ("Properties", JVal.jobj [("Code", JVal.jstr "src")])]

/-- A Lambda resource whose Properties is a string, not a mapping. -/
def badPropsRes : JVal :=
  JVal.jobj [("Type", JVal.jstr "AWS::Lambda::Function"),
             ("Properties", JVal.jstr "oops")]

/-- Caller options for the two-resource run: template /t/x.yaml, no
prefix, no live updates. -/
def c3raw : RawOptions :=
  { bucket := "b", pfx := none, templateFile := "/t/x.yaml", basedir := none,
    updateFunctions := false }

/-- A world whose template holds one uploadable resource A and one
resource B with a string Properties. -/
def c3world : World :=
  { testWorld with templateLoad := Except.ok (JVal.jobj
      [("Resources", JVal.jobj [("A", lambdaRes), ("B", badPropsRes)])]) }

/-- Right-associating the source's s3:/ + /bucket/key concatenation
gives the s3://bucket/key remote-location format. -/
theorem s3UrlFormat (b k : String) :
    "s3:/" ++ ("/" ++ b ++ "/" ++ k) = "s3://" ++ b ++ "/" ++ k := by
  rw [show ("/" ++ b ++ "/" ++ k : String) = "/" ++ (b ++ "/" ++ k) by
        simp [String.append_assoc],
      ← String.append_assoc "s3:/" "/" (b ++ "/" ++ k)]
  simp [String.append_assoc]

/-- C8: in the static type-to-property table the duplicated literal key
AWS::AppSync::Resolver collides: the second entry silently overwrites
the first, a lookup for that type yields
ResponseMappingTemplateS3Location, and no lookup of any type ever
yields RequestMappingTemplateS3Location. -/
theorem c8_resolver_collision :
    packageResourceMap "AWS::AppSync::Resolver" = some "ResponseMappingTemplateS3Location"
    ∧ ∀ t : String, packageResourceMap t ≠ some "RequestMappingTemplateS3Location" := by
  constructor
  · rfl
  · intro t h
    unfold packageResourceMap lookupLast at h
    rcases Option.map_eq_some'.mp h with ⟨p, hfind, hval⟩
    have hkey := List.find?_some hfind
    have hmem := List.mem_of_find?_eq_some hfind
    rcases p with ⟨pk, pv⟩
    simp only at hval
    subst hval
    simp [packageResourceMapEntries] at hmem
    subst hmem
    have ht : "AWS::AppSync::Resolver" = t := by simpa using hkey
    subst ht
    exact absurd hfind (by decide)

/-- C1: evaluating the aws-sdk variant conditional upload at an
existence-check error with status 500 (neither 304, 200 nor 404): the
task throws the ReferenceError on the undefined res instead of failing
with the status-surfacing transport error the https variant produces. -/
theorem c1_sdk_status500_throws :
    (uploadSdk baseOpts { testWorld with headSdk := fun _ => some 500 }
        "Fn" "Code" [1] none).result
      = TaskResult.threw "ReferenceError: res is not defined" := by
  rfl

/-- C9: whenever the aws-sdk existence check errs with a status other
than 304, 200 and 404, the upload closure throws the ReferenceError on
the undefined variable res; no callback error is produced there. -/
theorem c9_sdk_undefined_res (opts : Options) (w : World) (logicalId pn : String)
    (body : List Nat) (thumbprint : Option String) (sc : Nat)
    (h : w.headSdk (uploadKeyOf opts.pfx logicalId (shortIdOf (w.md5hex body) thumbprint))
      = some sc)
    (h304 : sc ≠ 304) (h200 : sc ≠ 200) (h404 : sc ≠ 404) :
    (uploadSdk opts w logicalId pn body thumbprint).result
      = TaskResult.threw "ReferenceError: res is not defined" := by
  unfold uploadSdk
  simp only [h, h304, h200, h404]
  simp [h304, h200, h404]

/-- C9 witness: the sdk existence check errs with 503 and the closure
throws. -/
theorem c9_sdk_undefined_res_w :
    (uploadSdk baseOpts { testWorld with headSdk := fun _ => some 503 }
        "Fn" "Code" [1] none).result
      = TaskResult.threw "ReferenceError: res is not defined" :=
  c9_sdk_undefined_res baseOpts { testWorld with headSdk := fun _ => some 503 }
    "Fn" "Code" [1] none 503 rfl (by decide) (by decide) (by decide)

/-- C4 counterexample: a Lambda resource whose Properties is the string
oops satisfies the claim's skip disjunction (its target property is
absent), yet the planner does not skip it: the task fails with the
structural error. -/
theorem c4_counterexample :
    skipSpecLiteral false badPropsRes = true
    ∧ planResource false "B" badPropsRes
        = PlanDecision.structuralError "Resources.B.Properties must be an object."
    ∧ planResource false "B" badPropsRes ≠ PlanDecision.skip := by
  refine ⟨rfl, rfl, ?_⟩
  decide

/-- C4 amended: the planner skips exactly under the claim's conditions
restricted to a non-null resource whose Properties, when present and
consulted, is a non-null typeof-object (otherwise the task is the
structural error or a TypeError, not a skip); and a skipped resource's
task succeeds at once with no mutation and no I/O. -/
theorem c4_amended_skip_iff (opts : Options) (w : World) (logicalId : String) (resource : JVal) :
    (planResource opts.updateFunctions logicalId resource = PlanDecision.skip
      ↔ skipSpecAmended opts.updateFunctions resource = true)
    ∧ (planResource opts.updateFunctions logicalId resource = PlanDecision.skip →
        runTask opts w logicalId resource
          = { result := TaskResult.ok, mutation := none, effects := [] }) := by
  constructor
  · cases resource with
    | jnull => simp [planResource, skipSpecAmended, isNullB]
    | jstr s =>
      simp [planResource, skipSpecAmended, isNullB, jsGet, tableLookupOf, isFnTypeB]
    | jnum n =>
      simp [planResource, skipSpecAmended, isNullB, jsGet, tableLookupOf, isFnTypeB]
    | jbool b =>
      simp [planResource, skipSpecAmended, isNullB, jsGet, tableLookupOf, isFnTypeB]
    | jarr xs =>
      simp [planResource, skipSpecAmended, isNullB, jsGet, tableLookupOf, isFnTypeB]
    | jobj fields =>
      simp only [planResource, skipSpecAmended, isNullB, Bool.not_false, Bool.true_and]
      by_cases h1 : (opts.updateFunctions && !(isFnTypeB (jsGet (JVal.jobj fields) "Type"))) = true
      · simp [h1]
      · simp only [Bool.not_eq_true] at h1
        simp only [h1, if_neg, Bool.false_eq_true, not_false_eq_true, Bool.false_or, if_false]
        cases h2 : tableLookupOf (jsGet (JVal.jobj fields) "Type") with
        | none => simp
        | some pn =>
          cases h3 : jsGet (JVal.jobj fields) "Properties" with
          | none => simp
          | some props =>
            cases props with
            | jstr s => simp [jsTypeof, propNotLocalB, isNullB]
            | jnum n => simp [jsTypeof, propNotLocalB, isNullB]
            | jbool b => simp [jsTypeof, propNotLocalB, isNullB]
            | jnull => simp [jsTypeof, propNotLocalB, isNullB]
            | jarr xs => simp [jsTypeof, propNotLocalB, isNullB, jsGet]
            | jobj pfields =>
              simp only [jsTypeof, propNotLocalB, isNullB, jsGet]
              cases h4 : lookupLast pfields pn with
              | none => simp
              | some pv =>
                cases pv with
                | jstr s =>
                  by_cases h5 : strStartsWith s "s3:" = true
                  · simp [h5]
                  · simp [h5]
                | jnum n => simp
                | jbool b => simp
                | jnull => simp
                | jarr ys => simp
                | jobj ofields => simp
  · intro h
    unfold runTask
    rw [h]

set_option maxRecDepth 4000 in
/-- C2 counterexample: live-update mode, the put succeeded, the logical
id is missing from the live index: the task completes with an error,
yet the artifact property has already been rewritten to the remote
location. -/
theorem c2_counterexample :
    (runTask { baseOpts with updateFunctions := true } testWorld "file" lambdaRes).result
      = TaskResult.err ("The resource \x27file\x27 in the stack is not found")
    ∧ (runTask { baseOpts with updateFunctions := true } testWorld "file" lambdaRes).mutation
      = some ("Code", "s3://b/file-0123456789abcdef") := by
  refine ⟨?_, ?_⟩ <;> rfl

set_option maxRecDepth 8000 in
/-- C3 counterexample: a template holding an uploadable resource A and
a resource B whose Properties is a string: the run does fail with the
structural error for B, but A's task was already launched and its
upload is attempted (a put reached the store), so the error is not
before all I/O and uploads are not zero. -/
theorem c3_counterexample :
    packageTemplate c3raw c3world
      = RunOutcome.failed "Resources.B.Properties must be an object."
          [Effect.readFileE "/t/src",
           Effect.headE "/b/A-0123456789abcdef" "\"0123456789abcdef0123456789abcdef\"",
           Effect.putE "/b/A-0123456789abcdef" [7]]
    ∧ Effect.putE "/b/A-0123456789abcdef" [7]
        ∈ [Effect.readFileE "/t/src",
           Effect.headE "/b/A-0123456789abcdef" "\"0123456789abcdef0123456789abcdef\"",
           Effect.putE "/b/A-0123456789abcdef" [7]] := by
  refine ⟨?_, ?_⟩
  · rfl
  · simp

/-- The planner's structural error message always names the failing
logical id in the fixed Resources.<id>.Properties format. -/
theorem planStructShape (uf : Bool) (logicalId : String) (resource : JVal) (m2 : String)
    (hp : planResource uf logicalId resource = PlanDecision.structuralError m2) :
    m2 = "Resources." ++ logicalId ++ ".Properties must be an object." := by
  cases resource with
  | jnull => simp [planResource] at hp
  | jstr s => simp [planResource, jsGet, tableLookupOf, isFnTypeB] at hp
  | jnum n => simp [planResource, jsGet, tableLookupOf, isFnTypeB] at hp
  | jbool b => simp [planResource, jsGet, tableLookupOf, isFnTypeB] at hp
  | jarr xs => simp [planResource, jsGet, tableLookupOf, isFnTypeB] at hp
  | jobj fields =>
    simp only [planResource] at hp
    by_cases h1 : (uf && !(isFnTypeB (jsGet (JVal.jobj fields) "Type"))) = true
    · simp [h1] at hp
    · simp only [Bool.not_eq_true] at h1
      simp only [h1, Bool.false_eq_true, if_false] at hp
      cases h2 : tableLookupOf (jsGet (JVal.jobj fields) "Type") with
      | none => rw [h2] at hp; simp at hp
      | some pn =>
        rw [h2] at hp
        cases h3 : jsGet (JVal.jobj fields) "Properties" with
        | none => rw [h3] at hp; simp at hp
        | some props =>
          rw [h3] at hp
          cases props with
          | jstr s => simp [jsTypeof] at hp; exact hp.symm
          | jnum n => simp [jsTypeof] at hp; exact hp.symm
          | jbool b => simp [jsTypeof] at hp; exact hp.symm
          | jnull => simp [jsTypeof] at hp
          | jarr ys => simp [jsTypeof, jsGet] at hp
          | jobj pfields =>
            simp only [jsTypeof, reduceIte] at hp
            cases h4 : lookupLast pfields pn with
            | none => simp [jsGet, h4] at hp
            | some pv =>
              simp only [jsGet, h4] at hp
              cases pv with
              | jstr v =>
                by_cases h5 : strStartsWith v "s3:" = true <;> simp [h5] at hp
              | jnum n2 => simp at hp
              | jbool b2 => simp at hp
              | jnull => simp at hp
              | jarr zs => simp at hp
              | jobj o2 => simp at hp

/-- structMsgOf inverted: a structural message comes from a structural
plan of that message. -/
theorem structMsgShape (uf : Bool) (logicalId : String) (resource : JVal) (m : String)
    (h : structMsgOf (planResource uf logicalId resource) = some m) :
    m = "Resources." ++ logicalId ++ ".Properties must be an object." := by
  cases hq : planResource uf logicalId resource with
  | skip => rw [hq] at h; simp [structMsgOf] at h
  | threw t => rw [hq] at h; simp [structMsgOf] at h
  | emit a b => rw [hq] at h; simp [structMsgOf] at h
  | structuralError m2 =>
    rw [hq] at h
    simp only [structMsgOf, Option.some.injEq] at h
    rw [← h]
    exact planStructShape uf logicalId resource m2 hq

/-- C3 amended: a resource whose Properties is present but of a
non-object typeof makes the run fail with the structural error (being
synchronous it wins over every I/O-dependent error), provided no task
throws during launch; sibling tasks are still launched, so their
effects, uploads included, still happen (see the counterexample). -/
theorem c3_amended_structural_failure (opts : Options) (w : World)
    (entries : List (String × JVal)) (logicalId : String) (resource : JVal)
    (hmem : (logicalId, resource) ∈ entries)
    (hnothrew : ∀ e ∈ entries, threwMsgOf (planResource opts.updateFunctions e.1 e.2) = none)
    (hstruct : structMsgOf (planResource opts.updateFunctions logicalId resource)
      = some ("Resources." ++ logicalId ++ ".Properties must be an object.")) :
    ∃ lid2 effs, packageRunTasks opts w entries
      = RunOutcome.failed ("Resources." ++ lid2 ++ ".Properties must be an object.") effs := by
  unfold packageRunTasks
  have h1 : entries.findSome? (fun e => threwMsgOf (planResource opts.updateFunctions e.1 e.2))
      = none :=
    List.findSome?_eq_none_iff.mpr (fun e he => hnothrew e he)
  cases h2 : entries.findSome? (fun e => structMsgOf (planResource opts.updateFunctions e.1 e.2)) with
  | none =>
    have hc := List.findSome?_eq_none_iff.mp h2 (logicalId, resource) hmem
    simp only at hc
    rw [hstruct] at hc
    cases hc
  | some m =>
    rcases List.exists_of_findSome?_eq_some h2 with ⟨⟨lid2, r2⟩, hm2, hf2⟩
    simp only at hf2
    have hshape := structMsgShape opts.updateFunctions lid2 r2 m hf2
    simp only [h1, h2]
    exact ⟨lid2, _, by rw [hshape]⟩

/-- C3 amended witness: the one-resource template whose Properties is
a string fails with its structural error. -/
theorem c3_amended_structural_failure_w :
    ∃ lid2 effs, packageRunTasks baseOpts testWorld [("B", badPropsRes)]
      = RunOutcome.failed ("Resources." ++ lid2 ++ ".Properties must be an object.") effs :=
  c3_amended_structural_failure baseOpts testWorld [("B", badPropsRes)] "B" badPropsRes
    (by simp) (by intro e he; simp at he; subst he; rfl) rfl

/-- C6: in live-update mode, after a successful upload (absent
destination, completed put) a logical id missing from the live index
fails the task with the distinctly labeled resource-not-found
consistency error, and a failing compute-update call fails it with the
distinct update-attempted-and-failed label; both variants behave
alike. -/
theorem c6_live_update_labels (opts : Options) (w : World) (logicalId pn : String)
    (body : List Nat) (thumbprint : Option String)
    (huf : opts.updateFunctions = true)
    (hhead : w.headStatus ("/" ++ opts.bucket ++ "/"
      ++ uploadKeyOf opts.pfx logicalId (shortIdOf (w.md5hex body) thumbprint)) = 404)
    (hput : w.putNetError ("/" ++ opts.bucket ++ "/"
      ++ uploadKeyOf opts.pfx logicalId (shortIdOf (w.md5hex body) thumbprint)) = none)
    (hheadS : w.headSdk (uploadKeyOf opts.pfx logicalId (shortIdOf (w.md5hex body) thumbprint))
      = none)
    (hputS : w.putSdkError (uploadKeyOf opts.pfx logicalId (shortIdOf (w.md5hex body) thumbprint))
      = none) :
    (lookupLast opts.stackResources logicalId = none →
      (uploadHttps opts w logicalId pn body thumbprint).result
        = TaskResult.err ("The resource \x27" ++ logicalId ++ "\x27 in the stack is not found")
      ∧ (uploadSdk opts w logicalId pn body thumbprint).result
        = TaskResult.err ("The resource \x27" ++ logicalId ++ "\x27 in the stack is not found"))
    ∧ (∀ sr e, lookupLast opts.stackResources logicalId = some sr →
        w.updateFnError (sr.PhysicalResourceId.headD "undefined") = some e →
        (uploadHttps opts w logicalId pn body thumbprint).result
          = TaskResult.err ("Updating the function \x27"
              ++ sr.PhysicalResourceId.headD "undefined" ++ "\x27 is failed")
        ∧ (uploadSdk opts w logicalId pn body thumbprint).result
          = TaskResult.err ("Updating the function \x27"
              ++ sr.PhysicalResourceId.headD "undefined" ++ "\x27 is failed")) := by
  constructor
  · intro hnone
    constructor
    · unfold uploadHttps
      simp [hhead, hput, huf, hnone]
    · unfold uploadSdk
      simp [hheadS, hputS, huf, hnone]
  · intro sr e hsome hupd
    rw [List.headD_eq_head?_getD] at hupd
    constructor
    · unfold uploadHttps
      simp [hhead, hput, huf, hsome, hupd, List.headD_eq_head?_getD]
    · unfold uploadSdk
      simp [hheadS, hputS, huf, hsome, hupd, List.headD_eq_head?_getD]

/-- C6 witness: with an empty live index the https task errs with the
resource-not-found label. -/
theorem c6_live_update_labels_w :
    (uploadHttps { baseOpts with updateFunctions := true } testWorld "Fn" "Code" [1] none).result
      = TaskResult.err ("The resource \x27Fn\x27 in the stack is not found") :=
  ((c6_live_update_labels { baseOpts with updateFunctions := true } testWorld "Fn" "Code"
      [1] none rfl rfl rfl rfl rfl).1 rfl).1

/-- Wherever the https-variant upload rewrites the property, the new
value is the s3://bucket/key remote location. -/
theorem uploadHttpsMutationShape (opts : Options) (w : World) (logicalId pn : String)
    (body : List Nat) (thumbprint : Option String) :
    (uploadHttps opts w logicalId pn body thumbprint).mutation = none
    ∨ (uploadHttps opts w logicalId pn body thumbprint).mutation
      = some (pn, "s3://" ++ opts.bucket ++ "/"
          ++ uploadKeyOf opts.pfx logicalId (shortIdOf (w.md5hex body) thumbprint)) := by
  simp only [uploadHttps]
  repeat' split
  all_goals simp [s3UrlFormat]

/-- Wherever the aws-sdk-variant upload rewrites the property, the new
value is the s3://bucket/key remote location. -/
theorem uploadSdkMutationShape (opts : Options) (w : World) (logicalId pn : String)
    (body : List Nat) (thumbprint : Option String) :
    (uploadSdk opts w logicalId pn body thumbprint).mutation = none
    ∨ (uploadSdk opts w logicalId pn body thumbprint).mutation
      = some (pn, "s3://" ++ opts.bucket ++ "/"
          ++ uploadKeyOf opts.pfx logicalId (shortIdOf (w.md5hex body) thumbprint)) := by
  simp only [uploadSdk]
  repeat' split
  all_goals simp

/-- C5: whenever either variant rewrites the artifact property, the new
value is s3://bucket/key with the deterministic key
prefix/logicalId-short (or logicalId-short without a prefix), short
being the first 16 characters of the packer thumbprint when a non-empty
one is present and of the payload MD5 digest otherwise; the key is a
function of (prefix, logicalId, fingerprint, thumbprint) alone, so one
(resource, content) pair always yields one key. -/
theorem c5_upload_key_format (opts : Options) (w : World) (logicalId pn : String)
    (body : List Nat) (thumbprint : Option String) :
    (∀ v, (uploadHttps opts w logicalId pn body thumbprint).mutation = some (pn, v) →
      v = "s3://" ++ opts.bucket ++ "/"
        ++ uploadKeyOf opts.pfx logicalId (shortIdOf (w.md5hex body) thumbprint))
    ∧ (∀ v, (uploadSdk opts w logicalId pn body thumbprint).mutation = some (pn, v) →
      v = "s3://" ++ opts.bucket ++ "/"
        ++ uploadKeyOf opts.pfx logicalId (shortIdOf (w.md5hex body) thumbprint))
    ∧ (uploadKeyOf opts.pfx logicalId (shortIdOf (w.md5hex body) thumbprint)
        = match opts.pfx with
          | none => logicalId ++ "-" ++ shortIdOf (w.md5hex body) thumbprint
          | some p => p ++ "/" ++ logicalId ++ "-" ++ shortIdOf (w.md5hex body) thumbprint)
    ∧ (shortIdOf (w.md5hex body) none = (w.md5hex body).take 16)
    ∧ (∀ t, t ≠ "" → shortIdOf (w.md5hex body) (some t) = t.take 16)
    ∧ (∀ (w2 : World) (body2 : List Nat), w2.md5hex body2 = w.md5hex body →
        uploadKeyOf opts.pfx logicalId (shortIdOf (w2.md5hex body2) thumbprint)
          = uploadKeyOf opts.pfx logicalId (shortIdOf (w.md5hex body) thumbprint)) := by
  refine ⟨?_, ?_, rfl, rfl, ?_, ?_⟩
  · intro v hv
    rcases uploadHttpsMutationShape opts w logicalId pn body thumbprint with h | h
    · rw [hv] at h; cases h
    · rw [hv] at h
      simp only [Option.some.injEq, Prod.mk.injEq] at h
      exact h.2
  · intro v hv
    rcases uploadSdkMutationShape opts w logicalId pn body thumbprint with h | h
    · rw [hv] at h; cases h
    · rw [hv] at h
      simp only [Option.some.injEq, Prod.mk.injEq] at h
      exact h.2
  · intro t ht
    simp [shortIdOf, ht]
  · intro w2 body2 h2
    rw [h2]

/-- With live updates off, the https upload either succeeds or leaves
the property unmutated. -/
theorem uploadHttpsOffModeErr (opts : Options) (w : World) (logicalId pn : String)
    (body : List Nat) (thumbprint : Option String)
    (huf : opts.updateFunctions = false) :
    (uploadHttps opts w logicalId pn body thumbprint).result = TaskResult.ok
    ∨ (uploadHttps opts w logicalId pn body thumbprint).mutation = none := by
  simp only [uploadHttps]
  repeat' split
  all_goals simp_all

/-- The https upload outcomes: no mutation yet, plain success, or one
of the two live-update failure labels with the property already
written. -/
theorem uploadHttpsErrLabels (opts : Options) (w : World) (logicalId pn : String)
    (body : List Nat) (thumbprint : Option String) :
    (uploadHttps opts w logicalId pn body thumbprint).mutation = none
    ∨ (uploadHttps opts w logicalId pn body thumbprint).result = TaskResult.ok
    ∨ (uploadHttps opts w logicalId pn body thumbprint).result
        = TaskResult.err ("The resource \x27" ++ logicalId ++ "\x27 in the stack is not found")
    ∨ ∃ fn, (uploadHttps opts w logicalId pn body thumbprint).result
        = TaskResult.err ("Updating the function \x27" ++ fn ++ "\x27 is failed") := by
  simp only [uploadHttps]
  repeat' split
  all_goals first
    | exact Or.inr (Or.inr (Or.inr ⟨_, rfl⟩))
    | simp

/-- A task settles as an immediate success, a pre-upload error or
throw without mutation, or exactly as its conditional upload settles. -/
theorem runTaskOutcome (opts : Options) (w : World) (logicalId : String) (resource : JVal) :
    (runTask opts w logicalId resource).result = TaskResult.ok
      ∧ (runTask opts w logicalId resource).mutation = none
    ∨ (∃ m, (runTask opts w logicalId resource).result = TaskResult.err m
        ∧ (runTask opts w logicalId resource).mutation = none)
    ∨ (∃ m, (runTask opts w logicalId resource).result = TaskResult.threw m
        ∧ (runTask opts w logicalId resource).mutation = none)
    ∨ ∃ pn body tp,
        (runTask opts w logicalId resource).result
          = (uploadHttps opts w logicalId pn body tp).result
        ∧ (runTask opts w logicalId resource).mutation
          = (uploadHttps opts w logicalId pn body tp).mutation := by
  simp only [runTask]
  repeat' split
  all_goals first
    | exact Or.inl ⟨rfl, rfl⟩
    | exact Or.inr (Or.inl ⟨_, rfl, rfl⟩)
    | exact Or.inr (Or.inr (Or.inl ⟨_, rfl, rfl⟩))
    | exact Or.inr (Or.inr (Or.inr ⟨_, _, _, rfl, rfl⟩))

/-- C2 amended: the property is rewritten only by upload success: with
live updates off a task error always leaves it unchanged, and whenever
a task both errs and has rewritten it, the error is one of the two
post-put live-update failures (the counterexample shows the rewrite
does survive such a failure). -/
theorem c2_amended_mutation (opts : Options) (w : World) (logicalId : String) (resource : JVal) :
    (opts.updateFunctions = false →
      (runTask opts w logicalId resource).result = TaskResult.ok
      ∨ (runTask opts w logicalId resource).mutation = none)
    ∧ ((runTask opts w logicalId resource).mutation = none
      ∨ (runTask opts w logicalId resource).result = TaskResult.ok
      ∨ (runTask opts w logicalId resource).result
          = TaskResult.err ("The resource \x27" ++ logicalId ++ "\x27 in the stack is not found")
      ∨ ∃ fn, (runTask opts w logicalId resource).result
          = TaskResult.err ("Updating the function \x27" ++ fn ++ "\x27 is failed")) := by
  constructor
  · intro huf
    rcases runTaskOutcome opts w logicalId resource with ⟨h1, h2⟩ | ⟨m, h1, h2⟩ | ⟨m, h1, h2⟩
      | ⟨pn, body, tp, h1, h2⟩
    · exact Or.inl h1
    · exact Or.inr h2
    · exact Or.inr h2
    · rcases uploadHttpsOffModeErr opts w logicalId pn body tp huf with h | h
      · exact Or.inl (h1.trans h)
      · exact Or.inr (h2.trans h)
  · rcases runTaskOutcome opts w logicalId resource with ⟨h1, h2⟩ | ⟨m, h1, h2⟩ | ⟨m, h1, h2⟩
      | ⟨pn, body, tp, h1, h2⟩
    · exact Or.inr (Or.inl h1)
    · exact Or.inl h2
    · exact Or.inl h2
    · rcases uploadHttpsErrLabels opts w logicalId pn body tp with h | h | h | ⟨fn, h⟩
      · exact Or.inl (h2.trans h)
      · exact Or.inr (Or.inl (h1.trans h))
      · exact Or.inr (Or.inr (Or.inl (h1.trans h)))
      · exact Or.inr (Or.inr (Or.inr ⟨fn, h1.trans h⟩))

/-- C7: for an emitted task, a readable regular file supplies its raw
bytes straight to the upload with no packer; a read error other than
EISDIR fails the task with that error; EISDIR routes compute-function
types to the cached dependency packer (cache under homedir
/.cfn-package) and every other type to a fresh full-tree zip of the
directory (glob ** with dotfiles, no dirs, no sort, DEFLATE level 9,
no cache), feeding the result and optional thumbprint to the upload. -/
theorem c7_read_and_pack (opts : Options) (w : World) (logicalId : String) (resource : JVal)
    (pn v : String)
    (hplan : planResource opts.updateFunctions logicalId resource = PlanDecision.emit pn v) :
    (∀ bytes, w.fsRead (pathResolve opts.templateDir v) = FsRead.ok bytes →
      runTask opts w logicalId resource
        = { uploadHttps opts w logicalId pn bytes none with
            effects := Effect.readFileE (pathResolve opts.templateDir v)
              :: (uploadHttps opts w logicalId pn bytes none).effects })
    ∧ (∀ code msg, w.fsRead (pathResolve opts.templateDir v) = FsRead.fsError code msg →
        code ≠ "EISDIR" →
        runTask opts w logicalId resource
          = { result := TaskResult.err msg, mutation := none,
              effects := [Effect.readFileE (pathResolve opts.templateDir v)] })
    ∧ (∀ msg, w.fsRead (pathResolve opts.templateDir v) = FsRead.fsError "EISDIR" msg →
        isFnTypeB (jsGet resource "Type") = true →
        runTask opts w logicalId resource
          = (match w.packFunctionR (pathResolve opts.templateDir v) with
             | Except.error e =>
               { result := TaskResult.err e, mutation := none,
                 effects := [Effect.readFileE (pathResolve opts.templateDir v),
                   Effect.packFunctionE (pathResolve opts.templateDir v)
                     (w.homedir ++ "/.cfn-package")] }
             | Except.ok (bytes, thumbprint) =>
               { uploadHttps opts w logicalId pn bytes thumbprint with
                 effects := Effect.readFileE (pathResolve opts.templateDir v)
                   :: Effect.packFunctionE (pathResolve opts.templateDir v)
                       (w.homedir ++ "/.cfn-package")
                   :: (uploadHttps opts w logicalId pn bytes thumbprint).effects }))
    ∧ (∀ msg, w.fsRead (pathResolve opts.templateDir v) = FsRead.fsError "EISDIR" msg →
        isFnTypeB (jsGet resource "Type") = false →
        runTask opts w logicalId resource
          = (match w.packDirectoryR (pathResolve opts.templateDir v) with
             | Except.error e =>
               { result := TaskResult.err e, mutation := none,
                 effects := [Effect.readFileE (pathResolve opts.templateDir v),
                   Effect.packDirectoryE (pathResolve opts.templateDir v)
                     packDirectoryGlobOptions packDirectoryGenOptions] }
             | Except.ok bytes =>
               { uploadHttps opts w logicalId pn bytes none with
                 effects := Effect.readFileE (pathResolve opts.templateDir v)
                   :: Effect.packDirectoryE (pathResolve opts.templateDir v)
                       packDirectoryGlobOptions packDirectoryGenOptions
                   :: (uploadHttps opts w logicalId pn bytes none).effects }))
    ∧ packDirectoryGlobOptions = { glob := "**", dot := true, nodir := true, nosort := true }
    ∧ packDirectoryGenOptions = { compression := "DEFLATE", level := 9 } := by
  refine ⟨?_, ?_, ?_, ?_, rfl, rfl⟩
  · intro bytes hf
    simp only [runTask, hplan, hf]
  · intro code msg hf hne
    simp only [runTask, hplan, hf]
    simp [hne]
  · intro msg hf hfn
    simp only [runTask, hplan, hf, hfn]
    cases w.packFunctionR (pathResolve opts.templateDir v) with
    | error e => simp
    | ok pr => rcases pr with ⟨bytes, tp⟩; simp
  · intro msg hf hfn
    simp only [runTask, hplan, hf, hfn]
    cases w.packDirectoryR (pathResolve opts.templateDir v) with
    | error e => simp
    | ok bytes => simp

/-- C7 witness: for the concrete Lambda resource whose artifact is a
readable file, the task is the raw-bytes upload with the read effect
in front. -/
theorem c7_read_and_pack_w :
    runTask baseOpts testWorld "A" lambdaRes
      = { uploadHttps baseOpts testWorld "A" "Code" [7] none with
          effects := Effect.readFileE "/t/src"
            :: (uploadHttps baseOpts testWorld "A" "Code" [7] none).effects } :=
  (c7_read_and_pack baseOpts testWorld "A" lambdaRes "Code" "src" rfl).1 [7] rfl

/-- C10: the basedir option has no effect: it is defaulted and then
never read, artifact paths resolve against the template directory, so
two runs differing only in basedir produce identical outcomes. -/
theorem c10_basedir_no_effect (raw : RawOptions) (w : World) (b1 b2 : Option String) :
    packageTemplate { raw with basedir := b1 } w
      = packageTemplate { raw with basedir := b2 } w := by
  rfl
